import Mathlib

/-!
Verification development for the Autoresponse backend core.

The repository snapshot ships the TypeScript type declarations
(`src/types/services.ts`), the documented command surface
(`docs/API.md`, `docs/shared/types.md`) and the UI glue, but the Rust
implementation under `src-tauri/src` (Credential Store, Notification
Store, Response Cache, AI Proxy Router) is not present. Every
operation of those components is therefore modelled here from the
specification's words; each such definition carries a doc comment
beginning `Modelled from the spec:`.

Timestamps and ISO-8601 dates are embedded as abstract instants
(`Nat`), ordered as the dates are.
-/

namespace Autoresponse

/-- Notification lifecycle status, from `shared/types.md` `NotificationStatus`. -/
inductive NotificationStatus
  | New
  | Read
  | ActionRequired
  | ActionTaken
  | Archived
  | Deleted
deriving DecidableEq

/-- Notification priority, from `shared/types.md` `NotificationPriority`. -/
inductive NotificationPriority
  | Low
  | Medium
  | High
  | Critical
deriving DecidableEq

/-- Notification metadata, from `shared/types.md` `NotificationMetadata`.
The source enumeration and the free-form custom data are embedded as strings. -/
structure NotificationMetadata where
  source : String
  externalId : Option String
  url : Option String
  tags : List String
deriving DecidableEq

/-- A notification record, from `shared/types.md` `Notification`. -/
structure Notification where
  id : String
  title : String
  content : String
  priority : NotificationPriority
  status : NotificationStatus
  metadata : NotificationMetadata
  createdAt : Nat
  updatedAt : Nat
  readAt : Option Nat
  actionTakenAt : Option Nat
deriving DecidableEq

/-- The error taxonomy of spec section 7 (`ValidationError`, `NotFoundError`,
`AuthError`, `InvalidStateError`, `ServiceError`), mirrored from the
documented error types in `shared/types.md` and the development guide. -/
inductive DomainError
  | ValidationError (message : String)
  | NotFoundError (message : String)
  | AuthError (message : String)
  | InvalidStateError (message : String)
  | ServiceError (message : String)
deriving DecidableEq

/-- Modelled from the spec: the `mark_as_read` transition of the Notification
Store (command `mark_as_read`; implementation missing from the snapshot).
New/Read/ActionRequired/ActionTaken → Read: sets `readAt` if unset;
idempotent (re-marking Read is a no-op, not an error). -/
def mark_as_read (now : Nat) (n : Notification) : Except DomainError Notification :=
  match n.status with
  | .Read => Except.ok n
  | .New | .ActionRequired | .ActionTaken =>
      Except.ok { n with
        status := .Read
        readAt := match n.readAt with | some t => some t | none => some now
        updatedAt := now }
  | .Archived | .Deleted =>
      Except.error (.InvalidStateError "cannot mark an archived or deleted notification as read")

/-- Modelled from the spec: the `mark_action_required` transition of the
Notification Store (command `mark_action_required`; implementation missing
from the snapshot). Any non-terminal state → ActionRequired; no timestamp
side effect beyond `updatedAt`. -/
def mark_action_required (now : Nat) (n : Notification) : Except DomainError Notification :=
  match n.status with
  | .Archived | .Deleted =>
      Except.error (.InvalidStateError "cannot require action on an archived or deleted notification")
  | _ => Except.ok { n with status := .ActionRequired, updatedAt := now }

/-- Modelled from the spec: the `mark_action_taken` transition of the
Notification Store (command `mark_action_taken`; implementation missing from
the snapshot). ActionRequired or Read → ActionTaken: sets `actionTakenAt`;
fails with `InvalidStateError` if called from New. -/
def mark_action_taken (now : Nat) (n : Notification) : Except DomainError Notification :=
  match n.status with
  | .Read | .ActionRequired =>
      Except.ok { n with status := .ActionTaken, actionTakenAt := some now, updatedAt := now }
  | _ =>
      Except.error (.InvalidStateError "action cannot be taken before the notification is surfaced")

/-- Modelled from the spec: the `archive_notification` transition of the
Notification Store. Any state except Deleted → Archived. -/
def archive_notification (now : Nat) (n : Notification) : Except DomainError Notification :=
  match n.status with
  | .Deleted => Except.error (.InvalidStateError "cannot archive a deleted notification")
  | _ => Except.ok { n with status := .Archived, updatedAt := now }

/-- The Notification Store's record collection, embedded as a list of records. -/
abbrev Store := List Notification

/-- Look up a notification by id, as the store-level commands do. -/
def findNotification (id : String) (s : Store) : Option Notification :=
  List.find? (fun n => n.id == id) s

/-- Modelled from the spec: the store-level wrapper the per-id commands share.
It locates the record, applies the per-record transition, and on success
replaces the record in place; on any error the store is left unchanged and
the typed error is surfaced (`NotFoundError` when the id is absent). -/
def applyById (f : Notification → Except DomainError Notification) (id : String)
    (s : Store) : Store × Except DomainError Notification :=
  match findNotification id s with
  | none => (s, Except.error (.NotFoundError id))
  | some n =>
    match f n with
    | Except.error e => (s, Except.error e)
    | Except.ok n' => (List.map (fun m => if m.id == id then n' else m) s, Except.ok n')

/-- Modelled from the spec: the `mark_action_taken` command at store level. -/
def mark_action_taken_cmd (now : Nat) (id : String) (s : Store) :
    Store × Except DomainError Notification :=
  applyById (mark_action_taken now) id s

/-- Whether a status lies strictly past Read in the spec's ordering
New < Read < {ActionRequired, ActionTaken} < Archived. -/
def statusPastRead : NotificationStatus → Bool
  | .ActionRequired | .ActionTaken | .Archived => true
  | _ => false

/-- Modelled from the spec: the per-record step of the bulk
`mark_all_notifications_read` pass (implementation missing from the
snapshot). The pass applies the Read transition to every notification not
already Read/Archived/Deleted, but skips records past Read in the ordering
so it never regresses a record already moved further. -/
def bulkReadStep (now : Nat) (n : Notification) : Notification :=
  if n.status = .Read ∨ n.status = .Deleted ∨ statusPastRead n.status then n
  else
    match mark_as_read now n with
    | Except.ok n' => n'
    | Except.error _ => n

/-- Modelled from the spec: the bulk `mark_all_notifications_read` command. -/
def mark_all_notifications_read (now : Nat) (s : Store) : Store :=
  List.map (bulkReadStep now) s

/-- Modelled from the spec: the bulk `archive_all_read_notifications`
command (implementation missing from the snapshot): moves every Read
notification to Archived. -/
def archive_all_read_notifications (now : Nat) (s : Store) : Store :=
  List.map
    (fun n => if n.status = .Read then { n with status := .Archived, updatedAt := now } else n) s

/-- The notification list filter, from `shared/types.md`
`NotificationFilterRequest`; every field is independently optional. -/
structure NotificationFilterRequest where
  status : Option NotificationStatus := none
  source : Option String := none
  priority : Option NotificationPriority := none
  tags : Option (List String) := none
  fromDate : Option Nat := none
  toDate : Option Nat := none
  page : Option Int := none
  perPage : Option Int := none
deriving DecidableEq

/-- Modelled from the spec: documented default page number for listings. -/
def defaultPage : Int := 1

/-- Modelled from the spec: documented default page size for listings. -/
def defaultPerPage : Int := 20

/-- Modelled from the spec: the upper bound on `perPage` that prevents
unbounded scans. -/
def maxPerPage : Int := 100

/-- Modelled from the spec: conjunctive filter matching for `list(filter)` —
all supplied fields must hold (AND), tag membership is any-of, and the
creation date range is inclusive. Deleted records are excluded unless the
status filter explicitly requests them. -/
def matchesFilter (f : NotificationFilterRequest) (n : Notification) : Bool :=
  (match f.status with
   | none => !(n.status == .Deleted)
   | some st => n.status == st) &&
  (match f.source with | none => true | some src => n.metadata.source == src) &&
  (match f.priority with | none => true | some p => n.priority == p) &&
  (match f.tags with
   | none => true
   | some ts => List.any ts (fun t => List.contains n.metadata.tags t)) &&
  (match f.fromDate with | none => true | some d => decide (d ≤ n.createdAt)) &&
  (match f.toDate with | none => true | some d => decide (n.createdAt ≤ d))

/-- Insert a record into a list kept in descending creation-time order. -/
def insertByCreatedDesc (n : Notification) : List Notification → List Notification
  | [] => [n]
  | m :: ms =>
    if m.createdAt ≤ n.createdAt then n :: m :: ms else m :: insertByCreatedDesc n ms

/-- Modelled from the spec: listings are ordered by creation time descending. -/
def sortByCreatedDesc (l : List Notification) : List Notification :=
  List.foldr insertByCreatedDesc [] l

/-- The page of results returned by `get_all_notifications`, from
`shared/types.md` `NotificationListResponse`; `total` counts every match
independent of pagination. -/
structure NotificationListResponse where
  notifications : List Notification
  total : Nat
  page : Int
  perPage : Int
deriving DecidableEq

/-- Modelled from the spec: validation of the `perPage` pagination value —
fails with `ValidationError` when it is supplied and non-positive. -/
def validatePerPage (f : NotificationFilterRequest) : Option DomainError :=
  match f.perPage with
  | some pp => if pp ≤ 0 then some (.ValidationError "perPage must be positive") else none
  | none => none

/-- Modelled from the spec: validation of the pagination values — fails with
`ValidationError` when `page` or `perPage` is supplied and non-positive. -/
def validatePagination (f : NotificationFilterRequest) : Option DomainError :=
  match f.page with
  | some p => if p ≤ 0 then some (.ValidationError "page must be positive") else validatePerPage f
  | none => validatePerPage f

/-- Modelled from the spec: validation of `list(filter)` inputs — fails with
`ValidationError` on an invalid date range (`fromDate` after `toDate`) or
non-positive pagination values. -/
def validateFilter (f : NotificationFilterRequest) : Option DomainError :=
  match f.fromDate, f.toDate with
  | some a, some b =>
    if b < a then some (.ValidationError "fromDate is after toDate") else validatePagination f
  | _, _ => validatePagination f

/-- Modelled from the spec: the `get_all_notifications` query (implementation
missing from the snapshot). Validates the filter, applies the conjunctive
match, reports the total match count, and returns the requested page slice
ordered by creation time descending, with defaults and the `perPage` bound. -/
def get_all_notifications (f : NotificationFilterRequest) (s : Store) :
    Except DomainError NotificationListResponse :=
  match validateFilter f with
  | some e => Except.error e
  | none =>
    let matched := List.filter (matchesFilter f) s
    let page := (f.page).getD defaultPage
    let perPage := min ((f.perPage).getD defaultPerPage) maxPerPage
    let sorted := sortByCreatedDesc matched
    let slice := List.take perPage.toNat (List.drop ((page - 1).toNat * perPage.toNat) sorted)
    Except.ok { notifications := slice, total := matched.length, page := page, perPage := perPage }

/-- Service enumeration, from `src/types/services.ts` `ServiceType`
(the docs additionally list Email; Custom carries a free-form tag per the
spec's data model). -/
inductive ServiceType
  | Email
  | Github
  | Gitlab
  | Jira
  | Google
  | Microsoft
  | LinkedIn
  | Custom (tag : String)
deriving DecidableEq

/-- Authentication scheme tag, from `src/types/services.ts` `AuthType`. -/
inductive AuthType
  | OAuth2
  | BasicAuth
  | ApiKey
  | Custom (tag : String)
deriving DecidableEq

/-- OAuth2 auth material, from `src/types/services.ts` `OAuth2Config`. -/
structure OAuth2Config where
  clientId : String
  clientSecret : String
  redirectUri : String
  authUrl : String
  tokenUrl : String
  scope : List String
  accessToken : Option String
  refreshToken : Option String
  tokenExpiresAt : Option Nat
deriving DecidableEq

/-- Basic auth material, from `src/types/services.ts` `BasicAuthConfig`. -/
structure BasicAuthConfig where
  username : String
  password : String
deriving DecidableEq

/-- API-key auth material, from `src/types/services.ts` `ApiKeyConfig`. -/
structure ApiKeyConfig where
  key : String
  headerName : Option String
deriving DecidableEq

/-- Custom auth material, from `src/types/services.ts` `CustomAuthConfig`;
the free-form map is embedded as an association list. -/
structure CustomAuthConfig where
  authType : String
  config : List (String × String)
deriving DecidableEq

/-- Auth material, from `src/types/services.ts`
`AuthConfig = OAuth2Config | BasicAuthConfig | ApiKeyConfig | CustomAuthConfig`:
a tagged variant, so exactly one variant is ever populated. -/
inductive AuthConfig
  | OAuth2 (c : OAuth2Config)
  | BasicAuth (c : BasicAuthConfig)
  | ApiKey (c : ApiKeyConfig)
  | Custom (c : CustomAuthConfig)
deriving DecidableEq

/-- The populated auth-material variant matches the record's `authType` tag. -/
def authMatches : AuthType → AuthConfig → Bool
  | .OAuth2, .OAuth2 _ => true
  | .BasicAuth, .BasicAuth _ => true
  | .ApiKey, .ApiKey _ => true
  | .Custom _, .Custom _ => true
  | _, _ => false

/-- Service endpoint set, from `shared/types.md` `ServiceEndpoints`. -/
structure ServiceEndpoints where
  baseUrl : String
  endpoints : List (String × String)
deriving DecidableEq

/-- A stored service configuration, from `shared/types.md` `ServiceConfig`,
extended with the spec's needing-re-authorization mark set by a failed
token refresh. -/
structure ServiceConfig where
  id : String
  name : String
  serviceType : ServiceType
  authType : AuthType
  authConfig : AuthConfig
  endpoints : ServiceEndpoints
  enabled : Bool
  createdAt : Nat
  updatedAt : Nat
  lastSync : Option Nat
  metadata : List (String × String)
  needsReauth : Bool
deriving DecidableEq

/-- A creation request, from `shared/types.md` `CreateServiceConfigRequest`. -/
structure CreateServiceConfigRequest where
  name : String
  serviceType : ServiceType
  authType : AuthType
  authConfig : AuthConfig
  endpoints : ServiceEndpoints
deriving DecidableEq

/-- Modelled from the spec: the Credential Store `create` operation
(command `create_service_config`; implementation missing from the
snapshot). Validates name non-empty and that the populated auth-material
variant matches `authType`; assigns identity and timestamps. -/
def create_service_config (now : Nat) (newId : String) (req : CreateServiceConfigRequest) :
    Except DomainError ServiceConfig :=
  if req.name = "" then
    Except.error (.ValidationError "name must be non-empty")
  else if !authMatches req.authType req.authConfig then
    Except.error (.ValidationError "auth material does not match authType")
  else
    Except.ok
      { id := newId
        name := req.name
        serviceType := req.serviceType
        authType := req.authType
        authConfig := req.authConfig
        endpoints := req.endpoints
        enabled := true
        createdAt := now
        updatedAt := now
        lastSync := none
        metadata := []
        needsReauth := false }

/-- A partial auth update, from `shared/types.md` `UpdateServiceAuthRequest`:
only the supplied OAuth2 fields are merged. -/
structure UpdateServiceAuthRequest where
  clientId : Option String := none
  clientSecret : Option String := none
  accessToken : Option String := none
  refreshToken : Option String := none
  tokenExpiry : Option Nat := none
deriving DecidableEq

/-- Modelled from the spec: the Credential Store `updateAuth` operation
(command `update_auth_config`; implementation missing from the snapshot).
Merges only the supplied auth fields into the stored OAuth2 material and
bumps `updatedAt`; fails with `ValidationError` if the partial conflicts
with the stored `authType`. -/
def update_auth_config (upd : UpdateServiceAuthRequest) (now : Nat) (c : ServiceConfig) :
    Except DomainError ServiceConfig :=
  match c.authConfig with
  | .OAuth2 o =>
    Except.ok { c with
      authConfig := .OAuth2 { o with
        clientId := (upd.clientId).getD o.clientId
        clientSecret := (upd.clientSecret).getD o.clientSecret
        accessToken := match upd.accessToken with | some t => some t | none => o.accessToken
        refreshToken := match upd.refreshToken with | some t => some t | none => o.refreshToken
        tokenExpiresAt := match upd.tokenExpiry with | some t => some t | none => o.tokenExpiresAt }
      updatedAt := now }
  | _ => Except.error (.ValidationError "auth update conflicts with the stored authType")

/-- Modelled from the spec: the `enable_service` operation; toggles
`enabled` without touching stored tokens. -/
def enable_service (now : Nat) (c : ServiceConfig) : ServiceConfig :=
  { c with enabled := true, updatedAt := now }

/-- Modelled from the spec: the `disable_service` operation; disabling must
not delete stored tokens. -/
def disable_service (now : Nat) (c : ServiceConfig) : ServiceConfig :=
  { c with enabled := false, updatedAt := now }

/-- The outcome of one OAuth2 token-refresh exchange against the provider,
embedded as a value so the router around it stays deterministic. -/
inductive RefreshOutcome
  | success (accessToken : String) (refreshToken : String) (expiresAt : Nat)
  | failure (message : String)
deriving DecidableEq

/-- Modelled from the spec: one `refreshIfNeeded` pass over a single OAuth2
config (implementation missing from the snapshot). If `tokenExpiresAt` is
expired or within the safety margin, the refresh exchange runs: on success
the access token, refresh token and expiry are replaced together; on
failure the config is marked as needing re-authorization (never deleted)
and a distinguishable `AuthError` is surfaced. Returns the updated config
alongside the result. -/
def refreshConfig (exchange : RefreshOutcome) (margin now : Nat) (c : ServiceConfig) :
    ServiceConfig × Except DomainError ServiceConfig :=
  match c.authConfig with
  | .OAuth2 o =>
    match o.tokenExpiresAt with
    | some exp =>
      if exp ≤ now + margin then
        match exchange with
        | .success at' rt' exp' =>
          let c' := { c with
            authConfig := .OAuth2 { o with
              accessToken := some at'
              refreshToken := some rt'
              tokenExpiresAt := some exp' }
            needsReauth := false
            updatedAt := now }
          (c', Except.ok c')
        | .failure m =>
          ({ c with needsReauth := true }, Except.error (.AuthError m))
      else (c, Except.ok c)
    | none => (c, Except.ok c)
  | _ => (c, Except.ok c)

/-- The Credential Store's record collection, embedded as a list. -/
abbrev CredStore := List ServiceConfig

/-- Look up a service config by id. -/
def findConfig (id : String) (s : CredStore) : Option ServiceConfig :=
  List.find? (fun c => c.id == id) s

/-- Modelled from the spec: `refreshIfNeeded(id)` at store level. On any
outcome the stored record is kept (updated in place), never deleted. -/
def refresh_if_needed (exchange : RefreshOutcome) (margin now : Nat) (id : String)
    (s : CredStore) : CredStore × Except DomainError ServiceConfig :=
  match findConfig id s with
  | none => (s, Except.error (.NotFoundError id))
  | some c =>
    let (c', r) := refreshConfig exchange margin now c
    (List.map (fun m => if m.id == id then c' else m) s, r)

/-- The three AI proxy request kinds sharing one envelope discipline. -/
inductive RequestKind
  | analyze
  | generate
  | search
deriving DecidableEq

/-- An AI proxy request: kind, content (or query), and the caller's key
scope resolved via the Credential Store. -/
structure ProxyRequest where
  kind : RequestKind
  content : String
  apiKey : String
deriving DecidableEq

/-- Modelled from the spec: content normalization used for cache keying
(the spec fixes only that keys use normalized content; whitespace trimming
is the embedded normalization). -/
def normalizeContent (s : String) : String :=
  String.mk (List.dropWhile Char.isWhitespace
    (List.reverse (List.dropWhile Char.isWhitespace (List.reverse s.data))))

/-- A cache key: request kind, normalized content, key scope. -/
abbrev CacheKey := RequestKind × String × String

/-- Modelled from the spec: cache-key derivation from a request. -/
def cacheKey (r : ProxyRequest) : CacheKey :=
  (r.kind, normalizeContent r.content, r.apiKey)

/-- TTL class of a cache entry: short for generative content, longer for
search results. -/
inductive TTLClass
  | short
  | long
deriving DecidableEq

/-- Modelled from the spec: the expiry duration of each TTL class (the exact
durations are configuration; only short < long matters). -/
def ttlDuration : TTLClass → Nat
  | .short => 300
  | .long => 3600

/-- Modelled from the spec: the TTL class applied by request kind. -/
def ttlClassFor : RequestKind → TTLClass
  | .search => .long
  | _ => .short

/-- A cache entry: key, opaque serialized value, insertion time, TTL class. -/
structure CacheEntry where
  key : CacheKey
  value : String
  insertedAt : Nat
  ttl : TTLClass
deriving DecidableEq

/-- The Response Cache's content, embedded as a list of entries. -/
abbrev Cache := List CacheEntry

/-- Modelled from the spec: `get(key)` of the Response Cache — returns the
cached value only if not expired per its TTL class; an expired entry is
treated as absent. -/
def cacheGet (now : Nat) (k : CacheKey) (c : Cache) : Option String :=
  match List.find? (fun e => e.key == k) c with
  | some e => if now < e.insertedAt + ttlDuration e.ttl then some e.value else none
  | none => none

/-- Modelled from the spec: `put(key, value, ttlClass)` of the Response
Cache — inserts or replaces, resetting the insertion time on replace. -/
def cachePut (now : Nat) (k : CacheKey) (v : String) (t : TTLClass) (c : Cache) : Cache :=
  { key := k, value := v, insertedAt := now, ttl := t } ::
    List.filter (fun e => !(e.key == k)) c

/-- One backend's reaction to a dispatched request: a complete successful
payload, or one of the failure modes the spec names (unreachable, timeout,
malformed/partial response). -/
inductive BackendResult
  | ok (payload : String)
  | unreachable
  | timeout
  | malformed
deriving DecidableEq

/-- Whether a backend reaction counts as a failure for fallback purposes;
a partial or ambiguous (malformed) response is a failure, and a timeout is
treated identically to a backend failure. -/
def backendFailed : BackendResult → Bool
  | .ok _ => false
  | _ => true

/-- Human-readable reason for a backend failure, used in `ServiceError`. -/
def failureReason : BackendResult → String
  | .ok _ => "no failure"
  | .unreachable => "unreachable"
  | .timeout => "timeout"
  | .malformed => "malformed response"

/-- The routing outcome: the uniform result, the cache after the call, and
how many calls reached each backend. -/
structure RouteOutcome where
  result : Except DomainError String
  cache : Cache
  localCalls : Nat
  remoteCalls : Nat

/-- Modelled from the spec: the AI Proxy Router dispatch (implementation
missing from the snapshot). The cache is consulted before dispatch keyed on
(request kind, normalized content, key scope); on a hit the backends are
not contacted. On a miss the request routes first to the local backend; on
local failure with fallback enabled it is retried exactly once against the
remote backend; a successful response is cached before being returned;
failure of all avenues surfaces a `ServiceError` naming which backend(s)
failed. The two backends' reactions are passed in as values. -/
def route (fallbackEnabled : Bool) (localResp remoteResp : BackendResult) (now : Nat)
    (req : ProxyRequest) (cache : Cache) : RouteOutcome :=
  let k := cacheKey req
  match cacheGet now k cache with
  | some v => { result := Except.ok v, cache := cache, localCalls := 0, remoteCalls := 0 }
  | none =>
    match localResp with
    | .ok payload =>
      { result := Except.ok payload
        cache := cachePut now k payload (ttlClassFor req.kind) cache
        localCalls := 1
        remoteCalls := 0 }
    | _ =>
      if fallbackEnabled then
        match remoteResp with
        | .ok payload =>
          { result := Except.ok payload
            cache := cachePut now k payload (ttlClassFor req.kind) cache
            localCalls := 1
            remoteCalls := 1 }
        | _ =>
          { result := Except.error (.ServiceError
              ("local backend failed: " ++ failureReason localResp ++
               "; remote backend failed: " ++ failureReason remoteResp))
            cache := cache
            localCalls := 1
            remoteCalls := 1 }
      else
        { result := Except.error (.ServiceError
            ("local backend failed: " ++ failureReason localResp ++ "; fallback disabled"))
          cache := cache
          localCalls := 1
          remoteCalls := 0 }

/-- An event of the single-flight credential-refresh protocol: a caller
arrives asking for a refresh of a service id, or the in-flight exchange for
an id completes with an outcome. -/
inductive FlightEvent
  | arrive (caller : Nat) (id : String)
  | complete (id : String) (outcome : Bool)
deriving DecidableEq

/-- The shared single-flight state: the pending exchange per service id with
its attached waiting callers, a count of exchanges actually performed, and
the outcomes delivered to callers. -/
structure SFState where
  pending : List (String × List Nat)
  exchangesStarted : Nat
  delivered : List (Nat × Bool)
deriving DecidableEq

/-- The pending exchange entry for a service id, if any. -/
def lookupPending (id : String) (st : SFState) : Option (String × List Nat) :=
  List.find? (fun p => p.1 == id) st.pending

/-- Modelled from the spec: the single-flight credential-refresh protocol
(implementation missing from the snapshot), as an interleaving event
semantics. A shared pending result is keyed by service id: the first caller
installs it and performs the exchange, concurrent callers attach to the
same pending result, and on completion (success or failure) every attached
caller receives the same outcome and the entry is cleared so the next
expiry triggers a fresh exchange. -/
def sfStep (st : SFState) (e : FlightEvent) : SFState :=
  match e with
  | .arrive c id =>
    match lookupPending id st with
    | some _ =>
      { st with pending :=
          List.map (fun p => if p.1 == id then (p.1, c :: p.2) else p) st.pending }
    | none =>
      { st with
        pending := (id, [c]) :: st.pending
        exchangesStarted := st.exchangesStarted + 1 }
  | .complete id outcome =>
    match lookupPending id st with
    | some p =>
      { st with
        pending := List.filter (fun q => !(q.1 == id)) st.pending
        delivered := List.map (fun c => (c, outcome)) p.2 ++ st.delivered }
    | none => st

/-! Concrete records used to instantiate the theorems below. -/

/-- A sample metadata record. -/
def demoMeta : NotificationMetadata :=
  { source := "Github", externalId := none, url := none, tags := ["review"] }

/-- A sample notification in the initial state. -/
def demoNew : Notification :=
  { id := "n1", title := "PR review", content := "please review", priority := .High,
    status := .New, metadata := demoMeta, createdAt := 10, updatedAt := 10,
    readAt := none, actionTakenAt := none }

/-- A sample notification already marked Read. -/
def demoRead : Notification :=
  { demoNew with id := "n2", status := .Read, readAt := some 11, updatedAt := 11 }

/-- A sample notification already past Read (action taken). -/
def demoTaken : Notification :=
  { demoNew with
    id := "n3"
    status := .ActionTaken
    readAt := some 11
    actionTakenAt := some 12
    updatedAt := 12 }

/-- C2: calling `mark_action_taken` while the status is New always fails with
`InvalidStateError` and leaves the store unchanged; from Read or
ActionRequired it succeeds, setting the status to ActionTaken and setting
`actionTakenAt`. -/
theorem mark_action_taken_from_new_fails_else_succeeds
    (now : Nat) (id : String) (s : Store) (n : Notification)
    (hfind : findNotification id s = some n) :
    (n.status = .New →
      mark_action_taken_cmd now id s =
        (s, Except.error
          (.InvalidStateError "action cannot be taken before the notification is surfaced"))) ∧
    ((n.status = .Read ∨ n.status = .ActionRequired) →
      (mark_action_taken_cmd now id s).2 =
        Except.ok { n with status := .ActionTaken, actionTakenAt := some now,
                           updatedAt := now }) := by
  constructor
  · intro hnew
    simp [mark_action_taken_cmd, applyById, hfind, mark_action_taken, hnew]
  · intro hcase
    rcases hcase with h | h <;>
      simp [mark_action_taken_cmd, applyById, hfind, mark_action_taken, h]

/-- Witness for C2 at a concrete store: the New record rejects the
transition and the Read record accepts it. -/
theorem mark_action_taken_from_new_fails_else_succeeds_witness :
    (mark_action_taken_cmd 12 "n1" [demoNew, demoRead] =
      ([demoNew, demoRead], Except.error
        (.InvalidStateError "action cannot be taken before the notification is surfaced"))) ∧
    ((mark_action_taken_cmd 12 "n2" [demoNew, demoRead]).2 =
      Except.ok { demoRead with status := .ActionTaken, actionTakenAt := some 12,
                                updatedAt := 12 }) :=
  ⟨(mark_action_taken_from_new_fails_else_succeeds 12 "n1" [demoNew, demoRead] demoNew rfl).1
      rfl,
   (mark_action_taken_from_new_fails_else_succeeds 12 "n2" [demoNew, demoRead] demoRead rfl).2
      (Or.inl rfl)⟩

/-- C3: `mark_as_read` succeeds from New, Read, ActionRequired and
ActionTaken; it never overwrites a set `readAt` and sets it when unset;
applying it twice yields the same record (and hence the same `readAt`) as
applying it once; re-marking an already-Read notification is a no-op, not
an error. -/
theorem mark_as_read_idempotent (now now2 : Nat) (n : Notification)
    (h : n.status = .New ∨ n.status = .Read ∨ n.status = .ActionRequired ∨
         n.status = .ActionTaken) :
    ∃ n1, mark_as_read now n = Except.ok n1 ∧
      n1.status = .Read ∧
      (∀ t, n.readAt = some t → n1.readAt = some t) ∧
      (n.readAt = none → n.status ≠ .Read → n1.readAt = some now) ∧
      mark_as_read now2 n1 = Except.ok n1 ∧
      (n.status = .Read → n1 = n) := by
  obtain ⟨i, ti, co, pr, st, me, ca, ua, ra, aa⟩ := n
  rcases h with rfl | rfl | rfl | rfl <;> rcases ra with _ | t <;>
    exact ⟨_, rfl, rfl, by simp [mark_as_read], by simp [mark_as_read], rfl, by simp⟩

/-- Witness for C3 at a concrete record: marking the fresh notification read
once yields the Read record, and the theorem's conjuncts hold there. -/
theorem mark_as_read_idempotent_witness :
    ∃ n1, mark_as_read 12 demoNew = Except.ok n1 ∧
      n1.status = .Read ∧
      (∀ t, demoNew.readAt = some t → n1.readAt = some t) ∧
      (demoNew.readAt = none → demoNew.status ≠ .Read → n1.readAt = some 12) ∧
      mark_as_read 13 n1 = Except.ok n1 ∧
      (demoNew.status = .Read → n1 = demoNew) :=
  mark_as_read_idempotent 12 13 demoNew (Or.inl rfl)

/-- C4: the bulk pass maps each record through `bulkReadStep`; a record that
was New before the pass ends with status Read, while a record past Read in
the ordering (ActionRequired, ActionTaken, Archived) keeps its prior state
unchanged, as do Read and Deleted records. -/
theorem mark_all_read_no_regress (now : Nat) (s : Store) (i : Nat) (h : i < s.length) :
    ∃ h2 : i < (mark_all_notifications_read now s).length,
      ((s.get ⟨i, h⟩).status = .New →
        ((mark_all_notifications_read now s).get ⟨i, h2⟩).status = .Read) ∧
      (statusPastRead (s.get ⟨i, h⟩).status = true →
        (mark_all_notifications_read now s).get ⟨i, h2⟩ = s.get ⟨i, h⟩) ∧
      ((s.get ⟨i, h⟩).status = .Read →
        (mark_all_notifications_read now s).get ⟨i, h2⟩ = s.get ⟨i, h⟩) ∧
      ((s.get ⟨i, h⟩).status = .Deleted →
        (mark_all_notifications_read now s).get ⟨i, h2⟩ = s.get ⟨i, h⟩) := by
  have h2 : i < (mark_all_notifications_read now s).length := by
    simpa [mark_all_notifications_read] using h
  have hg : (mark_all_notifications_read now s).get ⟨i, h2⟩ =
      bulkReadStep now (s.get ⟨i, h⟩) := by
    simp [mark_all_notifications_read]
  refine ⟨h2, ?_, ?_, ?_, ?_⟩ <;> rw [hg] <;> generalize s.get ⟨i, h⟩ = n <;> intro hs
  · simp [bulkReadStep, hs, statusPastRead, mark_as_read]
  · simp [bulkReadStep, hs]
  · simp [bulkReadStep, hs]
  · simp [bulkReadStep, hs]

/-- Witness for C4 at a concrete store: the New record at index 0 becomes
Read and the ActionTaken record at index 1 is untouched. -/
theorem mark_all_read_no_regress_witness :
    (∃ h2 : 0 < (mark_all_notifications_read 20 [demoNew, demoTaken]).length,
      (([demoNew, demoTaken].get ⟨0, by decide⟩).status = .New →
        ((mark_all_notifications_read 20 [demoNew, demoTaken]).get ⟨0, h2⟩).status = .Read) ∧
      (statusPastRead ([demoNew, demoTaken].get ⟨0, by decide⟩).status = true →
        (mark_all_notifications_read 20 [demoNew, demoTaken]).get ⟨0, h2⟩ =
          [demoNew, demoTaken].get ⟨0, by decide⟩) ∧
      (([demoNew, demoTaken].get ⟨0, by decide⟩).status = .Read →
        (mark_all_notifications_read 20 [demoNew, demoTaken]).get ⟨0, h2⟩ =
          [demoNew, demoTaken].get ⟨0, by decide⟩) ∧
      (([demoNew, demoTaken].get ⟨0, by decide⟩).status = .Deleted →
        (mark_all_notifications_read 20 [demoNew, demoTaken]).get ⟨0, h2⟩ =
          [demoNew, demoTaken].get ⟨0, by decide⟩)) ∧
    (∃ h2 : 1 < (mark_all_notifications_read 20 [demoNew, demoTaken]).length,
      (([demoNew, demoTaken].get ⟨1, by decide⟩).status = .New →
        ((mark_all_notifications_read 20 [demoNew, demoTaken]).get ⟨1, h2⟩).status = .Read) ∧
      (statusPastRead ([demoNew, demoTaken].get ⟨1, by decide⟩).status = true →
        (mark_all_notifications_read 20 [demoNew, demoTaken]).get ⟨1, h2⟩ =
          [demoNew, demoTaken].get ⟨1, by decide⟩) ∧
      (([demoNew, demoTaken].get ⟨1, by decide⟩).status = .Read →
        (mark_all_notifications_read 20 [demoNew, demoTaken]).get ⟨1, h2⟩ =
          [demoNew, demoTaken].get ⟨1, by decide⟩) ∧
      (([demoNew, demoTaken].get ⟨1, by decide⟩).status = .Deleted →
        (mark_all_notifications_read 20 [demoNew, demoTaken]).get ⟨1, h2⟩ =
          [demoNew, demoTaken].get ⟨1, by decide⟩)) :=
  ⟨mark_all_read_no_regress 20 [demoNew, demoTaken] 0 (by decide),
   mark_all_read_no_regress 20 [demoNew, demoTaken] 1 (by decide)⟩

/-- The filter that selects exactly the Read notifications. -/
def readFilter : NotificationFilterRequest := { status := some .Read }

/-- C5: after `archive_all_read_notifications`, listing with a status filter
of Read always succeeds and returns zero records — in particular zero of
the records that were Read before the call. -/
theorem archive_all_read_then_list_read_empty (now : Nat) (s : Store) :
    get_all_notifications readFilter (archive_all_read_notifications now s) =
      Except.ok { notifications := [], total := 0,
                  page := defaultPage, perPage := defaultPerPage } := by
  have hmatch : ∀ n ∈ archive_all_read_notifications now s,
      matchesFilter readFilter n = false := by
    intro n hn
    simp only [archive_all_read_notifications, List.mem_map] at hn
    obtain ⟨m, _, rfl⟩ := hn
    by_cases h : m.status = .Read <;> simp [matchesFilter, readFilter, h]
  have hfilter : List.filter (matchesFilter readFilter)
      (archive_all_read_notifications now s) = [] := by
    rw [List.filter_eq_nil_iff]
    intro a ha
    simp [hmatch a ha]
  have hval : validateFilter readFilter = none := rfl
  have hpage : readFilter.page = none := rfl
  have hper : readFilter.perPage = none := rfl
  simp [get_all_notifications, hval, hfilter, sortByCreatedDesc, defaultPage,
    defaultPerPage, maxPerPage, hpage, hper]

/-- C9: `get_all_notifications` fails with `ValidationError` whenever
`fromDate` is after `toDate`, and whenever `page` or `perPage` is supplied
non-positive; on such inputs no page of results is returned (only the
error). -/
theorem list_invalid_filter_fails (f : NotificationFilterRequest) (s : Store) :
    (∀ a b, f.fromDate = some a → f.toDate = some b → b < a →
      ∃ m, get_all_notifications f s = Except.error (.ValidationError m)) ∧
    (∀ p, f.page = some p → p ≤ 0 →
      ∃ m, get_all_notifications f s = Except.error (.ValidationError m)) ∧
    (∀ pp, f.perPage = some pp → pp ≤ 0 →
      ∃ m, get_all_notifications f s = Except.error (.ValidationError m)) := by
  have herr : ∀ m, validateFilter f = some (.ValidationError m) →
      get_all_notifications f s = Except.error (.ValidationError m) := by
    intro m hm
    simp [get_all_notifications, hm]
  refine ⟨?_, ?_, ?_⟩
  · intro a b ha hb hlt
    exact ⟨"fromDate is after toDate", herr _ (by simp [validateFilter, ha, hb, hlt])⟩
  · intro p hp hle
    have hpag : validatePagination f = some (.ValidationError "page must be positive") := by
      simp [validatePagination, hp, hle]
    rcases hfd : f.fromDate with _ | a <;> rcases htd : f.toDate with _ | b
    · exact ⟨"page must be positive", herr _ (by simp [validateFilter, hfd, htd, hpag])⟩
    · exact ⟨"page must be positive", herr _ (by simp [validateFilter, hfd, htd, hpag])⟩
    · exact ⟨"page must be positive", herr _ (by simp [validateFilter, hfd, htd, hpag])⟩
    · by_cases hlt : b < a
      · exact ⟨"fromDate is after toDate", herr _ (by simp [validateFilter, hfd, htd, hlt])⟩
      · exact ⟨"page must be positive", herr _ (by simp [validateFilter, hfd, htd, hlt, hpag])⟩
  · intro pp hf hle
    have hper : validatePerPage f = some (.ValidationError "perPage must be positive") := by
      simp [validatePerPage, hf, hle]
    have hpag : ∃ m, validatePagination f = some (.ValidationError m) := by
      rcases hp : f.page with _ | p
      · exact ⟨"perPage must be positive", by simp [validatePagination, hp, hper]⟩
      · by_cases hple : p ≤ 0
        · exact ⟨"page must be positive", by simp [validatePagination, hp, hple]⟩
        · exact ⟨"perPage must be positive", by simp [validatePagination, hp, hple, hper]⟩
    obtain ⟨m, hm⟩ := hpag
    rcases hfd : f.fromDate with _ | a <;> rcases htd : f.toDate with _ | b
    · exact ⟨m, herr _ (by simp [validateFilter, hfd, htd, hm])⟩
    · exact ⟨m, herr _ (by simp [validateFilter, hfd, htd, hm])⟩
    · exact ⟨m, herr _ (by simp [validateFilter, hfd, htd, hm])⟩
    · by_cases hlt : b < a
      · exact ⟨"fromDate is after toDate", herr _ (by simp [validateFilter, hfd, htd, hlt])⟩
      · exact ⟨m, herr _ (by simp [validateFilter, hfd, htd, hlt, hm])⟩

/-- Witness for C9: the documented scenario, a filter whose date range is
inverted, and filters with non-positive pagination, each rejected. -/
theorem list_invalid_filter_fails_witness :
    (∃ m, get_all_notifications { fromDate := some 32, toDate := some 1 } [demoNew] =
      Except.error (.ValidationError m)) ∧
    (∃ m, get_all_notifications { page := some 0 } [demoNew] =
      Except.error (.ValidationError m)) ∧
    (∃ m, get_all_notifications { perPage := some (-5) } [demoNew] =
      Except.error (.ValidationError m)) :=
  ⟨(list_invalid_filter_fails { fromDate := some 32, toDate := some 1 } [demoNew]).1
      32 1 rfl rfl (by decide),
   (list_invalid_filter_fails { page := some 0 } [demoNew]).2.1 0 rfl (by decide),
   (list_invalid_filter_fails { perPage := some (-5) } [demoNew]).2.2 (-5) rfl (by decide)⟩

/-- A sample OAuth2 auth material record. -/
def demoOAuth : OAuth2Config :=
  { clientId := "cid", clientSecret := "sec", redirectUri := "http://localhost/cb",
    authUrl := "https://auth", tokenUrl := "https://token", scope := ["repo"],
    accessToken := some "tok", refreshToken := some "ref", tokenExpiresAt := some 100 }

/-- A sample valid creation request. -/
def demoCreateReq : CreateServiceConfigRequest :=
  { name := "Github", serviceType := .Github, authType := .OAuth2,
    authConfig := .OAuth2 demoOAuth,
    endpoints := { baseUrl := "https://api.github.com", endpoints := [] } }

/-- The record `create_service_config` stores for `demoCreateReq`. -/
def demoConfig : ServiceConfig :=
  { id := "svc1", name := "Github", serviceType := .Github, authType := .OAuth2,
    authConfig := .OAuth2 demoOAuth,
    endpoints := { baseUrl := "https://api.github.com", endpoints := [] },
    enabled := true, createdAt := 5, updatedAt := 5, lastSync := none, metadata := [],
    needsReauth := false }

/-- C1: every Credential Store operation yields records whose single
populated auth-material variant matches `authType`: `create` validates it,
`updateAuth` preserves it, `enable`/`disable` do not touch it, and
`refreshIfNeeded` preserves it on every path. -/
theorem auth_variant_matches_auth_type :
    (∀ now newId req c, create_service_config now newId req = Except.ok c →
      authMatches c.authType c.authConfig = true) ∧
    (∀ upd now c c', authMatches c.authType c.authConfig = true →
      update_auth_config upd now c = Except.ok c' →
      authMatches c'.authType c'.authConfig = true) ∧
    (∀ now c, authMatches (enable_service now c).authType (enable_service now c).authConfig =
      authMatches c.authType c.authConfig) ∧
    (∀ now c, authMatches (disable_service now c).authType (disable_service now c).authConfig =
      authMatches c.authType c.authConfig) ∧
    (∀ exch margin now c, authMatches c.authType c.authConfig = true →
      authMatches (refreshConfig exch margin now c).1.authType
        (refreshConfig exch margin now c).1.authConfig = true) := by
  refine ⟨?_, ?_, ?_, ?_, ?_⟩
  · intro now newId req c h
    unfold create_service_config at h
    split at h
    · exact absurd h (by simp)
    · split at h
      · exact absurd h (by simp)
      · rename_i hm
        simp only [Except.ok.injEq] at h
        subst h
        simpa using hm
  · intro upd now c c' hinv h
    unfold update_auth_config at h
    split at h
    · rename_i o ho
      simp only [Except.ok.injEq] at h
      subst h
      rw [ho] at hinv
      cases hAT : c.authType <;> rw [hAT] at hinv <;> simp [authMatches] at hinv ⊢
    · exact absurd h (by simp)
  · intro now c
    rfl
  · intro now c
    rfl
  · intro exch margin now c hinv
    unfold refreshConfig
    split
    · rename_i o ho
      rw [ho] at hinv
      have hAT : authMatches c.authType (AuthConfig.OAuth2 o) = true := hinv
      split
      · split
        · cases exch <;>
            simp only [] <;>
            cases hT : c.authType <;> rw [hT] at hAT <;> simp [authMatches, ho] at hAT ⊢
        · simpa [ho] using hinv
      · simpa [ho] using hinv
    · exact hinv

/-- Witness for C1: the invariant holds concretely for the record created
from the sample request, after a partial token update, after
enable/disable, and after a refresh pass. -/
theorem auth_variant_matches_auth_type_witness :
    authMatches demoConfig.authType demoConfig.authConfig = true ∧
    (∀ c', update_auth_config { accessToken := some "new" } 6 demoConfig = Except.ok c' →
      authMatches c'.authType c'.authConfig = true) ∧
    authMatches (enable_service 7 demoConfig).authType
      (enable_service 7 demoConfig).authConfig =
      authMatches demoConfig.authType demoConfig.authConfig ∧
    authMatches (disable_service 7 demoConfig).authType
      (disable_service 7 demoConfig).authConfig =
      authMatches demoConfig.authType demoConfig.authConfig ∧
    authMatches (refreshConfig (.success "a2" "r2" 400) 60 90 demoConfig).1.authType
      (refreshConfig (.success "a2" "r2" 400) 60 90 demoConfig).1.authConfig = true :=
  ⟨auth_variant_matches_auth_type.1 5 "svc1" demoCreateReq demoConfig rfl,
   fun c' h =>
     auth_variant_matches_auth_type.2.1 { accessToken := some "new" } 6 demoConfig c' rfl h,
   auth_variant_matches_auth_type.2.2.1 7 demoConfig,
   auth_variant_matches_auth_type.2.2.2.1 7 demoConfig,
   auth_variant_matches_auth_type.2.2.2.2 (.success "a2" "r2" 400) 60 90 demoConfig rfl⟩

/-- Replacing every record whose id matches in a store keeps lookups for
that id pointing at the replacement, provided the replacement carries the
id and the lookup succeeded before. -/
theorem findConfig_map_replace (id : String) (c' : ServiceConfig)
    (hid : (c'.id == id) = true) :
    ∀ (s : CredStore) (c : ServiceConfig), findConfig id s = some c →
      findConfig id (List.map (fun m => if m.id == id then c' else m) s) = some c' := by
  intro s
  induction s with
  | nil =>
    intro c hc
    simp [findConfig] at hc
  | cons hd tl ih =>
    intro c hc
    unfold findConfig at hc ⊢
    cases hb : (hd.id == id) with
    | true =>
      have hmap : List.map (fun m => if (m.id == id) = true then c' else m) (hd :: tl) =
          c' :: List.map (fun m => if (m.id == id) = true then c' else m) tl := by
        simp only [List.map_cons, hb]
        simp
      rw [hmap, List.find?_cons_of_pos _ (by simpa using hid)]
    | false =>
      rw [List.find?_cons_of_neg _ (by simp [hb])] at hc
      have hmap : List.map (fun m => if (m.id == id) = true then c' else m) (hd :: tl) =
          hd :: List.map (fun m => if (m.id == id) = true then c' else m) tl := by
        simp only [List.map_cons, hb]
        simp
      rw [hmap, List.find?_cons_of_neg _ (by simp [hb])]
      exact ih c hc

/-- C8: for an OAuth2 config whose token is expired or within the safety
margin, `refresh_if_needed` either succeeds — replacing `accessToken`,
`refreshToken` and `tokenExpiresAt` together in one atomic record update —
or fails, surfacing an `AuthError` (a constructor distinct from
`ServiceError`), marking the stored config as needing re-authorization and
keeping it in the store (same size, still found by id). -/
theorem refresh_if_needed_atomic_or_auth_error (margin now exp : Nat) (id : String)
    (s : CredStore) (c : ServiceConfig) (o : OAuth2Config)
    (hfind : findConfig id s = some c)
    (hauth : c.authConfig = .OAuth2 o)
    (hexp : o.tokenExpiresAt = some exp)
    (hdue : exp ≤ now + margin) :
    (∀ at' rt' e',
      (refresh_if_needed (.success at' rt' e') margin now id s).2 =
        Except.ok { c with
          authConfig := .OAuth2 { o with
            accessToken := some at'
            refreshToken := some rt'
            tokenExpiresAt := some e' }
          needsReauth := false
          updatedAt := now } ∧
      findConfig id (refresh_if_needed (.success at' rt' e') margin now id s).1 =
        some { c with
          authConfig := .OAuth2 { o with
            accessToken := some at'
            refreshToken := some rt'
            tokenExpiresAt := some e' }
          needsReauth := false
          updatedAt := now }) ∧
    (∀ m,
      (refresh_if_needed (.failure m) margin now id s).2 =
        Except.error (.AuthError m) ∧
      findConfig id (refresh_if_needed (.failure m) margin now id s).1 =
        some { c with needsReauth := true } ∧
      (refresh_if_needed (.failure m) margin now id s).1.length = s.length) ∧
    (∀ m m', DomainError.AuthError m ≠ DomainError.ServiceError m') := by
  have hid : (c.id == id) = true := by
    have := List.find?_some hfind
    simpa using this
  refine ⟨?_, ?_, ?_⟩
  · intro at' rt' e'
    have hconf : refreshConfig (.success at' rt' e') margin now c =
        ({ c with
            authConfig := .OAuth2 { o with
              accessToken := some at'
              refreshToken := some rt'
              tokenExpiresAt := some e' }
            needsReauth := false
            updatedAt := now },
          Except.ok { c with
            authConfig := .OAuth2 { o with
              accessToken := some at'
              refreshToken := some rt'
              tokenExpiresAt := some e' }
            needsReauth := false
            updatedAt := now }) := by
      simp [refreshConfig, hauth, hexp, hdue]
    constructor
    · simp [refresh_if_needed, hfind, hconf]
    · simp only [refresh_if_needed, hfind, hconf]
      refine findConfig_map_replace id _ ?_ s c hfind
      simpa using hid
  · intro m
    have hconf : refreshConfig (.failure m) margin now c =
        ({ c with needsReauth := true }, Except.error (.AuthError m)) := by
      simp [refreshConfig, hauth, hexp, hdue]
    refine ⟨?_, ?_, ?_⟩
    · simp [refresh_if_needed, hfind, hconf]
    · simp only [refresh_if_needed, hfind, hconf]
      refine findConfig_map_replace id _ ?_ s c hfind
      simpa using hid
    · simp [refresh_if_needed, hfind, hconf]
  · intro m m'
    simp

/-- Witness for C8 at a concrete store holding the sample OAuth2 config,
whose token (expiry 100) is due for refresh at time 90 with a margin of
60. -/
theorem refresh_if_needed_atomic_or_auth_error_witness :
    ((refresh_if_needed (.success "a2" "r2" 400) 60 90 "svc1" [demoConfig]).2 =
      Except.ok { demoConfig with
        authConfig := .OAuth2 { demoOAuth with
          accessToken := some "a2"
          refreshToken := some "r2"
          tokenExpiresAt := some 400 }
        needsReauth := false
        updatedAt := 90 }) ∧
    ((refresh_if_needed (.failure "revoked") 60 90 "svc1" [demoConfig]).2 =
      Except.error (.AuthError "revoked") ∧
     findConfig "svc1" (refresh_if_needed (.failure "revoked") 60 90 "svc1" [demoConfig]).1 =
      some { demoConfig with needsReauth := true } ∧
     (refresh_if_needed (.failure "revoked") 60 90 "svc1" [demoConfig]).1.length =
      [demoConfig].length) ∧
    DomainError.AuthError "revoked" ≠ DomainError.ServiceError "revoked" :=
  ⟨((refresh_if_needed_atomic_or_auth_error 60 90 100 "svc1" [demoConfig] demoConfig demoOAuth
      rfl rfl rfl (by decide)).1 "a2" "r2" 400).1,
   (refresh_if_needed_atomic_or_auth_error 60 90 100 "svc1" [demoConfig] demoConfig demoOAuth
      rfl rfl rfl (by decide)).2.1 "revoked",
   (refresh_if_needed_atomic_or_auth_error 60 90 100 "svc1" [demoConfig] demoConfig demoOAuth
      rfl rfl rfl (by decide)).2.2 "revoked" "revoked"⟩

/-- A value just written to the cache is readable at the same instant,
whatever the TTL class (both durations are positive). -/
theorem cacheGet_cachePut_same (now : Nat) (k : CacheKey) (v : String) (t : TTLClass)
    (c : Cache) : cacheGet now k (cachePut now k v t c) = some v := by
  have hlt : now < now + ttlDuration t := by
    cases t <;> simp [ttlDuration]
  simp [cacheGet, cachePut, List.find?, hlt]

/-- The concrete request used to instantiate the router theorems. -/
def demoReq : ProxyRequest := { kind := .analyze, content := "hello", apiKey := "k1" }

/-- C6: the cache is consulted before dispatch; on an unexpired hit the
cached value is returned and neither backend is contacted (both call counts
are zero); on a miss every successful backend response — whether the local
backend answered or the remote fallback did after a local failure — is
written to the cache before being returned, so a second identical request,
whatever the backends would now answer, is served from the cache with no
backend call. -/
theorem route_cache_before_dispatch (fb fb2 : Bool)
    (lresp rresp lresp2 rresp2 : BackendResult) (now : Nat) (req : ProxyRequest)
    (cache : Cache) :
    (∀ v, cacheGet now (cacheKey req) cache = some v →
      route fb lresp rresp now req cache =
        { result := Except.ok v, cache := cache, localCalls := 0, remoteCalls := 0 }) ∧
    (∀ p, cacheGet now (cacheKey req) cache = none → lresp = .ok p →
      route fb lresp rresp now req cache =
        { result := Except.ok p
          cache := cachePut now (cacheKey req) p (ttlClassFor req.kind) cache
          localCalls := 1
          remoteCalls := 0 } ∧
      cacheGet now (cacheKey req) (route fb lresp rresp now req cache).cache = some p ∧
      route fb2 lresp2 rresp2 now req (route fb lresp rresp now req cache).cache =
        { result := Except.ok p
          cache := (route fb lresp rresp now req cache).cache
          localCalls := 0
          remoteCalls := 0 }) ∧
    (∀ p, cacheGet now (cacheKey req) cache = none → backendFailed lresp = true →
      fb = true → rresp = .ok p →
      route fb lresp rresp now req cache =
        { result := Except.ok p
          cache := cachePut now (cacheKey req) p (ttlClassFor req.kind) cache
          localCalls := 1
          remoteCalls := 1 } ∧
      cacheGet now (cacheKey req) (route fb lresp rresp now req cache).cache = some p ∧
      route fb2 lresp2 rresp2 now req (route fb lresp rresp now req cache).cache =
        { result := Except.ok p
          cache := (route fb lresp rresp now req cache).cache
          localCalls := 0
          remoteCalls := 0 }) := by
  refine ⟨?_, ?_, ?_⟩
  · intro v hv
    simp [route, hv]
  · intro p hmiss hok
    subst hok
    have hfirst : route fb (.ok p) rresp now req cache =
        { result := Except.ok p
          cache := cachePut now (cacheKey req) p (ttlClassFor req.kind) cache
          localCalls := 1
          remoteCalls := 0 } := by
      simp [route, hmiss]
    have hcached : cacheGet now (cacheKey req) (route fb (.ok p) rresp now req cache).cache =
        some p := by
      rw [hfirst]
      exact cacheGet_cachePut_same now (cacheKey req) p (ttlClassFor req.kind) cache
    refine ⟨hfirst, hcached, ?_⟩
    set c2 := (route fb (.ok p) rresp now req cache).cache with hc2
    simp [route, hcached]
  · intro p hmiss hfail hfb hok
    subst hok
    subst hfb
    have hfirst : route true lresp (.ok p) now req cache =
        { result := Except.ok p
          cache := cachePut now (cacheKey req) p (ttlClassFor req.kind) cache
          localCalls := 1
          remoteCalls := 1 } := by
      cases lresp
      · simp [backendFailed] at hfail
      · simp [route, hmiss]
      · simp [route, hmiss]
      · simp [route, hmiss]
    have hcached :
        cacheGet now (cacheKey req) (route true lresp (.ok p) now req cache).cache =
          some p := by
      rw [hfirst]
      exact cacheGet_cachePut_same now (cacheKey req) p (ttlClassFor req.kind) cache
    refine ⟨hfirst, hcached, ?_⟩
    set c2 := (route true lresp (.ok p) now req cache).cache with hc2
    simp [route, hcached]

/-- Witness for C6: a hit in a one-entry cache answers without backend
calls; a miss in the empty cache answered by the local backend populates
the cache so the repeat request is served from it; and a miss where the
local backend times out but the enabled remote fallback succeeds likewise
caches the payload and serves the repeat request with no backend call. -/
theorem route_cache_before_dispatch_witness :
    (route true .timeout .timeout 10 demoReq
        [{ key := cacheKey demoReq, value := "v0", insertedAt := 0, ttl := .short }] =
      { result := Except.ok "v0"
        cache := [{ key := cacheKey demoReq, value := "v0", insertedAt := 0, ttl := .short }]
        localCalls := 0
        remoteCalls := 0 }) ∧
    (route true (.ok "fresh") .timeout 10 demoReq [] =
      { result := Except.ok "fresh"
        cache := cachePut 10 (cacheKey demoReq) "fresh" (ttlClassFor demoReq.kind) []
        localCalls := 1
        remoteCalls := 0 } ∧
     cacheGet 10 (cacheKey demoReq) (route true (.ok "fresh") .timeout 10 demoReq []).cache =
      some "fresh" ∧
     route false .malformed .unreachable 10 demoReq
        (route true (.ok "fresh") .timeout 10 demoReq []).cache =
      { result := Except.ok "fresh"
        cache := (route true (.ok "fresh") .timeout 10 demoReq []).cache
        localCalls := 0
        remoteCalls := 0 }) ∧
    (route true .timeout (.ok "remote") 10 demoReq [] =
      { result := Except.ok "remote"
        cache := cachePut 10 (cacheKey demoReq) "remote" (ttlClassFor demoReq.kind) []
        localCalls := 1
        remoteCalls := 1 } ∧
     cacheGet 10 (cacheKey demoReq) (route true .timeout (.ok "remote") 10 demoReq []).cache =
      some "remote" ∧
     route false .malformed .unreachable 10 demoReq
        (route true .timeout (.ok "remote") 10 demoReq []).cache =
      { result := Except.ok "remote"
        cache := (route true .timeout (.ok "remote") 10 demoReq []).cache
        localCalls := 0
        remoteCalls := 0 }) :=
  ⟨(route_cache_before_dispatch true false .timeout .timeout .malformed .unreachable 10 demoReq
      [{ key := cacheKey demoReq, value := "v0", insertedAt := 0, ttl := .short }]).1 "v0"
      (by decide),
   (route_cache_before_dispatch true false (.ok "fresh") .timeout .malformed .unreachable 10
      demoReq []).2.1 "fresh" rfl rfl,
   (route_cache_before_dispatch true false .timeout (.ok "remote") .malformed .unreachable 10
      demoReq []).2.2 "remote" rfl rfl rfl rfl⟩

/-- C7: on a cache miss the request always reaches the local backend first
(exactly one local call); the remote backend is tried exactly once when the
local backend fails and fallback is enabled, and never more than once; with
fallback disabled no remote call is made and a `ServiceError` naming the
local failure is returned; when both backends fail the `ServiceError` names
both failures; and a success result can only originate from a backend's
complete successful payload — a partial or malformed response is never
coerced into success. -/
theorem route_fallback_bounded (fb : Bool) (l r : BackendResult) (now : Nat)
    (req : ProxyRequest) (cache : Cache)
    (hmiss : cacheGet now (cacheKey req) cache = none) :
    (route fb l r now req cache).localCalls = 1 ∧
    (route fb l r now req cache).remoteCalls ≤ 1 ∧
    (backendFailed l = true → fb = true → (route fb l r now req cache).remoteCalls = 1) ∧
    (backendFailed l = true → fb = false →
      (route fb l r now req cache).remoteCalls = 0 ∧
      (route fb l r now req cache).result = Except.error (.ServiceError
        ("local backend failed: " ++ failureReason l ++ "; fallback disabled"))) ∧
    (backendFailed l = true → backendFailed r = true → fb = true →
      (route fb l r now req cache).result = Except.error (.ServiceError
        ("local backend failed: " ++ failureReason l ++
         "; remote backend failed: " ++ failureReason r))) ∧
    (∀ v, (route fb l r now req cache).result = Except.ok v →
      l = .ok v ∨ (fb = true ∧ r = .ok v)) := by
  cases l <;> cases r <;> cases fb <;>
    simp [route, hmiss, backendFailed, failureReason]

/-- Witness for C7: with an empty cache, a timed-out local backend, a
malformed remote response and fallback enabled, every conjunct holds. -/
theorem route_fallback_bounded_witness :
    (route true .timeout .malformed 10 demoReq []).localCalls = 1 ∧
    (route true .timeout .malformed 10 demoReq []).remoteCalls ≤ 1 ∧
    (backendFailed .timeout = true → true = true →
      (route true .timeout .malformed 10 demoReq []).remoteCalls = 1) ∧
    (backendFailed .timeout = true → true = false →
      (route true .timeout .malformed 10 demoReq []).remoteCalls = 0 ∧
      (route true .timeout .malformed 10 demoReq []).result = Except.error (.ServiceError
        ("local backend failed: " ++ failureReason .timeout ++ "; fallback disabled"))) ∧
    (backendFailed .timeout = true → backendFailed .malformed = true → true = true →
      (route true .timeout .malformed 10 demoReq []).result = Except.error (.ServiceError
        ("local backend failed: " ++ failureReason .timeout ++
         "; remote backend failed: " ++ failureReason .malformed))) ∧
    (∀ v, (route true .timeout .malformed 10 demoReq []).result = Except.ok v →
      BackendResult.timeout = .ok v ∨ (true = true ∧ BackendResult.malformed = .ok v)) :=
  route_fallback_bounded true .timeout .malformed 10 demoReq [] rfl

/-- Filtering out every entry keyed by an id leaves nothing for a lookup of
that id to find. -/
theorem find?_filter_ne_none (id : String) (l : List (String × List Nat)) :
    List.find? (fun p => p.1 == id) (List.filter (fun q => !(q.1 == id)) l) = none := by
  rw [List.find?_eq_none]
  intro x hx
  have hmem := List.mem_filter.mp hx
  simp only [Bool.not_eq_true'] at hmem
  simp [hmem.2]

/-- Attaching a caller to the pending entry for an id rewrites exactly that
entry, so a lookup finds the entry with the caller attached. -/
theorem find?_map_attach (id : String) (c : Nat) (l : List (String × List Nat)) :
    ∀ ws, List.find? (fun p => p.1 == id) l = some (id, ws) →
      List.find? (fun p => p.1 == id)
        (List.map (fun p => if (p.1 == id) = true then (p.1, c :: p.2) else p) l) =
        some (id, c :: ws) := by
  induction l with
  | nil =>
    intro ws h
    simp at h
  | cons hd tl ih =>
    intro ws h
    cases hb : (hd.1 == id) with
    | true =>
      rw [@List.find?_cons_of_pos (String × List Nat) (fun q => q.1 == id) hd tl hb] at h
      have hhd : hd = (id, ws) := Option.some.inj h
      subst hhd
      have hmap : List.map (fun p => if (p.1 == id) = true then (p.1, c :: p.2) else p)
          ((id, ws) :: tl) =
          (id, c :: ws) :: List.map (fun p => if (p.1 == id) = true then (p.1, c :: p.2) else p)
            tl := by
        simp only [List.map_cons, hb]
        simp
      rw [hmap]
      simp [List.find?]
    | false =>
      rw [List.find?_cons_of_neg _ (by simp [hb])] at h
      have hmap : List.map (fun p => if (p.1 == id) = true then (p.1, c :: p.2) else p)
          (hd :: tl) =
          hd :: List.map (fun p => if (p.1 == id) = true then (p.1, c :: p.2) else p) tl := by
        simp only [List.map_cons, hb]
        simp
      rw [hmap, List.find?_cons_of_neg _ (by simp [hb])]
      exact ih ws h

/-- C10: in the single-flight protocol, a caller arriving while an exchange
for the same id is pending starts no new exchange and is attached to the
pending entry; a caller arriving with no pending exchange starts exactly
one and installs the entry; on completion every attached caller — the
first caller and all concurrent ones — receives the same outcome and the
entry is cleared, so a later arrival starts a fresh exchange. -/
theorem single_flight_refresh (st : SFState) (id : String) (c c2 : Nat) (ws : List Nat)
    (b : Bool) :
    (lookupPending id st = some (id, ws) →
      (sfStep st (.arrive c id)).exchangesStarted = st.exchangesStarted ∧
      lookupPending id (sfStep st (.arrive c id)) = some (id, c :: ws)) ∧
    (lookupPending id st = none →
      (sfStep st (.arrive c id)).exchangesStarted = st.exchangesStarted + 1 ∧
      lookupPending id (sfStep st (.arrive c id)) = some (id, [c])) ∧
    (lookupPending id st = some (id, ws) →
      (sfStep st (.complete id b)).delivered =
        List.map (fun w => (w, b)) ws ++ st.delivered ∧
      lookupPending id (sfStep st (.complete id b)) = none ∧
      (sfStep (sfStep st (.complete id b)) (.arrive c2 id)).exchangesStarted =
        (sfStep st (.complete id b)).exchangesStarted + 1) ∧
    (lookupPending id st = some (id, ws) →
      (sfStep (sfStep st (.arrive c id)) (.complete id b)).delivered =
        List.map (fun w => (w, b)) (c :: ws) ++ st.delivered) := by
  refine ⟨?_, ?_, ?_, ?_⟩
  · intro h
    constructor
    · simp [sfStep, h]
    · simp only [sfStep, h]
      exact find?_map_attach id c st.pending ws h
  · intro h
    constructor
    · simp [sfStep, h]
    · simp only [sfStep, h]
      simp [lookupPending, List.find?]
  · intro h
    have hclear : lookupPending id (sfStep st (.complete id b)) = none := by
      simp only [sfStep, h]
      exact find?_filter_ne_none id st.pending
    refine ⟨by simp [sfStep, h], hclear, ?_⟩
    set st2 := sfStep st (.complete id b)
    simp [sfStep, hclear]
  · intro h
    have hatt : lookupPending id (sfStep st (.arrive c id)) = some (id, c :: ws) := by
      simp only [sfStep, h]
      exact find?_map_attach id c st.pending ws h
    have hdel : (sfStep st (.arrive c id)).delivered = st.delivered := by
      simp [sfStep, h]
    set st1 := sfStep st (.arrive c id)
    simp [sfStep, hatt, hdel]

/-- Witness for C10 at a concrete state: caller 1 has a refresh for service
id svc in flight; caller 2 arrives, no second exchange starts, and on
completion both callers receive the same outcome; afterwards the entry is
gone and a fresh arrival starts a new exchange. -/
theorem single_flight_refresh_witness :
    ((sfStep { pending := [("svc", [1])], exchangesStarted := 1, delivered := [] }
        (.arrive 2 "svc")).exchangesStarted = 1 ∧
      lookupPending "svc"
        (sfStep { pending := [("svc", [1])], exchangesStarted := 1, delivered := [] }
          (.arrive 2 "svc")) = some ("svc", [2, 1])) ∧
    ((sfStep (sfStep { pending := [("svc", [1])], exchangesStarted := 1, delivered := [] }
        (.arrive 2 "svc")) (.complete "svc" true)).delivered =
      List.map (fun w => (w, true)) [2, 1] ++ []) ∧
    ((sfStep { pending := [("svc", [1])], exchangesStarted := 1, delivered := [] }
        (.complete "svc" true)).delivered = List.map (fun w => (w, true)) [1] ++ [] ∧
      lookupPending "svc"
        (sfStep { pending := [("svc", [1])], exchangesStarted := 1, delivered := [] }
          (.complete "svc" true)) = none ∧
      (sfStep (sfStep { pending := [("svc", [1])], exchangesStarted := 1, delivered := [] }
          (.complete "svc" true)) (.arrive 3 "svc")).exchangesStarted =
        (sfStep { pending := [("svc", [1])], exchangesStarted := 1, delivered := [] }
          (.complete "svc" true)).exchangesStarted + 1) :=
  ⟨(single_flight_refresh { pending := [("svc", [1])], exchangesStarted := 1, delivered := [] }
      "svc" 2 3 [1] true).1 rfl,
   (single_flight_refresh { pending := [("svc", [1])], exchangesStarted := 1, delivered := [] }
      "svc" 2 3 [1] true).2.2.2 rfl,
   (single_flight_refresh { pending := [("svc", [1])], exchangesStarted := 1, delivered := [] }
      "svc" 2 3 [1] true).2.2.1 rfl⟩

end Autoresponse
